import Mathlib

/-!
Shallow embedding of `src/Investimento.py` (the analytics core: the metric
deriver `calcular_metricas`, the trend classifier `analisar_tendencia`, and
the growth projector `calcular_projecao_crescimento`).

Modelling conventions, matching the pandas/NumPy source:

* A cell of a numeric series is `Val := Option ℚ`; `none` models the IEEE
  `NaN` sentinel that pandas threads through rolling-window computations.
  Exact rational arithmetic stands in for `float64`; no analysed property
  depends on rounding.
* Float comparisons with `NaN` are false (`vgt`), and arithmetic with `NaN`
  yields `NaN` (the `v*` operations).
* Division by zero yields `±inf` for floats; the rational model has no
  infinities and returns `none` there. No analysed property depends on a
  division by zero: derived series of a valid `PriceSeries` (positive
  prices) never divide by zero, and every concrete input used below avoids
  a zero denominator.
* `Series.iloc[-k]` is `ilocNeg xs k`. An out-of-range access raises
  `IndexError` in the source; the model returns `none` for it, so "the
  access does not produce a number" covers both the `NaN` and the raising
  case.
* `pct_change` is modelled with no filling of missing values
  (`fill_method=None`); a valid `PriceSeries` has no missing prices, and no
  analysed claim depends on the value of a return computed from a missing
  price.
-/

namespace Investimento

/-- A cell of a pandas numeric series: `none` models the `NaN` sentinel. -/
abbrev Val := Option ℚ

/-- Float addition with `NaN` propagation. -/
def vadd : Val → Val → Val
  | some a, some b => some (a + b)
  | _, _ => none

/-- Float subtraction with `NaN` propagation. -/
def vsub : Val → Val → Val
  | some a, some b => some (a - b)
  | _, _ => none

/-- Float multiplication with `NaN` propagation. -/
def vmul : Val → Val → Val
  | some a, some b => some (a * b)
  | _, _ => none

/-- Float division with `NaN` propagation. A zero denominator gives `±inf`
for floats; the rational model returns `none` there (no analysed property
depends on that case). -/
def vdiv : Val → Val → Val
  | some a, some b => if b = 0 then none else some (a / b)
  | _, _ => none

/-- Float `>`: any comparison involving `NaN` is false. -/
def vgt : Val → Val → Bool
  | some a, some b => decide (b < a)
  | _, _ => false

/-- `xs.iloc[-k]` for `k ≥ 1`: the `k`-th element from the end. Out of
range (an `IndexError` in the source) is modelled as `none`. -/
def ilocNeg (xs : List Val) (k : Nat) : Val :=
  if 1 ≤ k ∧ k ≤ xs.length then (xs.get? (xs.length - k)).getD none else none

/-- `Series.pct_change()` with no filling: entry `t` is
`price[t] / price[t-1] - 1`, `NaN` at the first entry (no prior value). -/
def pct_change (xs : List Val) : List Val :=
  List.zipWith (fun prev cur => vsub (vdiv cur prev) (some 1)) (none :: xs) xs

/-- `Series.cumprod()` with pandas' default `skipna=True`: a `NaN` entry
stays `NaN` in the output and is skipped (contributes factor 1) in the
running product over the later entries. `acc` is the running product of
the defined entries seen so far. -/
def cumprodSkip : List Val → ℚ → List Val
  | [], _ => []
  | none :: t, acc => none :: cumprodSkip t acc
  | some x :: t, acc => some (acc * x) :: cumprodSkip t (acc * x)

/-- `(1 + rets).cumprod() - 1`, the `Retorno_Acumulado` column. -/
def retornoAcumulado (rets : List Val) : List Val :=
  (cumprodSkip (rets.map (fun r => vadd (some 1) r)) 1).map (fun v => vsub v (some 1))

/-- All cells defined: `some` of the list of values; `none` as soon as one
cell is `NaN`. -/
def seqOpt : List Val → Option (List ℚ)
  | [] => some []
  | none :: _ => none
  | some x :: t => (seqOpt t).map (x :: ·)

/-- `Series.rolling(window=w)` followed by an aggregation `f`. With the
pandas default `min_periods = w`, entry `i` is defined only when the `w`
cells ending at `i` all exist and are not `NaN`. -/
def rollingApply (w : Nat) (f : List ℚ → ℚ) (xs : List Val) : List Val :=
  (List.range xs.length).map fun i =>
    if i + 1 < w then none
    else
      match seqOpt ((xs.drop (i + 1 - w)).take w) with
      | some ys => some (f ys)
      | none => none

/-- `rolling(window=w).mean()`. -/
def rollingMean (w : Nat) (xs : List Val) : List Val :=
  rollingApply w (fun ys => ys.sum / (w : ℚ)) xs

/-- Sample variance (divisor `n - 1`), the square of pandas'
`Series.std()`. -/
def sampleVar (ys : List ℚ) : ℚ :=
  (ys.map (fun y => (y - ys.sum / (ys.length : ℚ)) ^ 2)).sum / ((ys.length : ℚ) - 1)

/-- The `Volatilidade` column, `rolling(window=30).std() * sqrt(252)` in
the source. The source's cell value `std · √252` is irrational, so the
model records its square `252 · sampleVar`: the recorded cell is defined
exactly when the source's is, and is zero (resp. positive) exactly when
the source's is. No property analysed here depends on the cell's value
beyond that. -/
def volatilidade (rets : List Val) : List Val :=
  rollingApply 30 (fun ys => 252 * sampleVar ys) rets

/-- The pandas `DataFrame` of one instrument: the raw `Adj Close` column
and the five derived columns, which are absent (`[]`) until
`calcular_metricas` assigns them in place. -/
structure DataFrame where
  Adj_Close : List Val
  Retorno_Diario : List Val := []
  Retorno_Acumulado : List Val := []
  Media_Movel_50 : List Val := []
  Media_Movel_200 : List Val := []
  Volatilidade : List Val := []
deriving Repr, DecidableEq

/-- `calcular_metricas(df)` (src/Investimento.py lines 22-34). The source
assigns five derived columns on `df` itself and returns that same object;
the returned structure is the post-state of the caller's `DataFrame`. -/
def calcular_metricas (df : DataFrame) : DataFrame :=
  { df with
    Retorno_Diario := pct_change df.Adj_Close
    Retorno_Acumulado := retornoAcumulado (pct_change df.Adj_Close)
    Media_Movel_50 := rollingMean 50 df.Adj_Close
    Media_Movel_200 := rollingMean 200 df.Adj_Close
    Volatilidade := volatilidade (pct_change df.Adj_Close) }

/-- `analisar_tendencia(df)` (src/Investimento.py lines 37-43): label,
arrow, and percentage. A `NaN` moving average makes the float comparison
false, so control falls to the `else` branch. -/
def analisar_tendencia (df : DataFrame) : String × String × Val :=
  if vgt (ilocNeg df.Media_Movel_50 1) (ilocNeg df.Media_Movel_200 1) then
    ("Crescimento", "⬆️",
      vmul (vsub (vdiv (ilocNeg df.Media_Movel_50 1) (ilocNeg df.Media_Movel_200 1)) (some 1))
        (some 100))
  else
    ("Queda", "⬇️",
      vmul (vsub (some 1) (vdiv (ilocNeg df.Media_Movel_50 1) (ilocNeg df.Media_Movel_200 1)))
        (some 100))

/-- The `momento_crescimento` local of `calcular_projecao_crescimento`
(src/Investimento.py line 48): `(MA50.iloc[-1] - MA50.iloc[-5]) / 5`. -/
def momento_crescimento (df : DataFrame) : Val :=
  vdiv (vsub (ilocNeg df.Media_Movel_50 1) (ilocNeg df.Media_Movel_50 5)) (some 5)

/-- `calcular_projecao_crescimento(df)` (src/Investimento.py lines 46-57):
momentum damped by volatility, clamped below at 0 (the `NaN < 0`
comparison is false, so `NaN` passes through the clamp), times 100. -/
def calcular_projecao_crescimento (df : DataFrame) : Val :=
  let crescimento_projetado :=
    vmul (momento_crescimento df) (vsub (some 1) (ilocNeg df.Volatilidade 1))
  let clamped : Val :=
    match crescimento_projetado with
    | some x => if x < 0 then some 0 else some x
    | none => none
  vmul clamped (some 100)

/-- One full analysis run on one instrument: the deriver followed by the
classifier and the projector, as in `main`/`recomendar_compra_e_projecao`.
The first component is the post-state of the caller's `DataFrame`. -/
def pipeline (df : DataFrame) : DataFrame × (String × String × Val) × Val :=
  (calcular_metricas df,
   analisar_tendencia (calcular_metricas df),
   calcular_projecao_crescimento (calcular_metricas df))

/-! NaN-propagation helper lemmas. -/

@[simp]
theorem vadd_none_left (x : Val) : vadd none x = none := by cases x <;> rfl

@[simp]
theorem vadd_none_right (x : Val) : vadd x none = none := by cases x <;> rfl

@[simp]
theorem vsub_none_left (x : Val) : vsub none x = none := by cases x <;> rfl

@[simp]
theorem vsub_none_right (x : Val) : vsub x none = none := by cases x <;> rfl

@[simp]
theorem vmul_none_left (x : Val) : vmul none x = none := by cases x <;> rfl

@[simp]
theorem vmul_none_right (x : Val) : vmul x none = none := by cases x <;> rfl

@[simp]
theorem vdiv_none_left (x : Val) : vdiv none x = none := by cases x <;> rfl

@[simp]
theorem vdiv_none_right (x : Val) : vdiv x none = none := by cases x <;> rfl

@[simp]
theorem vgt_none_left (x : Val) : vgt none x = false := by cases x <;> rfl

@[simp]
theorem vgt_none_right (x : Val) : vgt x none = false := by cases x <;> rfl

/-! Concrete inputs used by the per-claim theorems. Each column is written
out as a literal so the theorems evaluate by `simp`/`norm_num`. -/

/-- MetricSeries with `MA50 = 110`, `MA200 = 100` at the latest date. -/
def dfC1g : DataFrame :=
  { Adj_Close := [], Media_Movel_50 := [some 110], Media_Movel_200 := [some 100] }

/-- MetricSeries with `MA50 = 90`, `MA200 = 100` at the latest date. -/
def dfC1d : DataFrame :=
  { Adj_Close := [], Media_Movel_50 := [some 90], Media_Movel_200 := [some 100] }

/-- MetricSeries with `MA50 = MA200 = 100` at the latest date. -/
def dfC1t : DataFrame :=
  { Adj_Close := [], Media_Movel_50 := [some 100], Media_Movel_200 := [some 100] }

/-- C1: when both moving averages are defined at the latest date (and the
200-day one is nonzero, as for any series of positive prices),
`analisar_tendencia` returns Growth (`"Crescimento"`) with magnitude
`(MA50/MA200 - 1) * 100` when `MA50 > MA200`, and otherwise Decline
(`"Queda"`) with magnitude `(1 - MA50/MA200) * 100`; in particular the tie
`MA50 = MA200` lands in the Decline branch with magnitude 0. -/
theorem tendencia_formula (df : DataFrame) (a b : ℚ)
    (h50 : ilocNeg df.Media_Movel_50 1 = some a)
    (h200 : ilocNeg df.Media_Movel_200 1 = some b) (hb : b ≠ 0) :
    analisar_tendencia df =
      if b < a then ("Crescimento", "⬆️", some ((a / b - 1) * 100))
      else ("Queda", "⬇️", some ((1 - a / b) * 100)) := by
  by_cases hab : b < a <;>
    simp [analisar_tendencia, h50, h200, hab, vgt, vdiv, vsub, vmul, hb]

theorem tendencia_formula_witness :
    analisar_tendencia dfC1g = ("Crescimento", "⬆️", some 10) ∧
    analisar_tendencia dfC1d = ("Queda", "⬇️", some 10) ∧
    analisar_tendencia dfC1t = ("Queda", "⬇️", some 0) := by
  refine ⟨?_, ?_, ?_⟩
  · rw [tendencia_formula dfC1g 110 100 (by simp [dfC1g, ilocNeg])
      (by simp [dfC1g, ilocNeg]) (by norm_num)]
    norm_num
  · rw [tendencia_formula dfC1d 90 100 (by simp [dfC1d, ilocNeg])
      (by simp [dfC1d, ilocNeg]) (by norm_num)]
    norm_num
  · rw [tendencia_formula dfC1t 100 100 (by simp [dfC1t, ilocNeg])
      (by simp [dfC1t, ilocNeg]) (by norm_num)]
    norm_num

/-- MetricSeries whose `MA50` falls from 10 to 0 over the last five dates
(momentum `-2`) with latest volatility 0. -/
def dfC2 : DataFrame :=
  { Adj_Close := []
    Media_Movel_50 := [some 10, some 0, some 0, some 0, some 0]
    Volatilidade := [some 0] }

/-- C2: whenever the momentum term and the latest volatility are (defined)
numbers, the projector returns a number `r ≥ 0`, and `r = 0` whenever the
risk-adjusted momentum `m * (1 - v)` is negative (the clamp). -/
theorem projecao_clamp (df : DataFrame) (m v : ℚ)
    (hm : momento_crescimento df = some m)
    (hv : ilocNeg df.Volatilidade 1 = some v) :
    ∃ r : ℚ, calcular_projecao_crescimento df = some r ∧ 0 ≤ r ∧
      (m * (1 - v) < 0 → r = 0) := by
  by_cases hneg : m * (1 - v) < 0
  · exact ⟨0, by simp [calcular_projecao_crescimento, hm, hv, vmul, vsub, hneg],
      le_refl 0, fun _ => rfl⟩
  · refine ⟨m * (1 - v) * 100, ?_, ?_, fun hc => absurd hc hneg⟩
    · simp [calcular_projecao_crescimento, hm, hv, vmul, vsub, hneg]
    · exact mul_nonneg (not_lt.mp hneg) (by norm_num)

theorem projecao_clamp_witness :
    ∃ r : ℚ, calcular_projecao_crescimento dfC2 = some r ∧ 0 ≤ r ∧
      ((-2 : ℚ) * (1 - 0) < 0 → r = 0) :=
  projecao_clamp dfC2 (-2) 0
    (by simp [dfC2, momento_crescimento, ilocNeg, vsub, vdiv]; norm_num)
    (by simp [dfC2, ilocNeg])

/-- A one-observation price series. -/
def dfC3 : DataFrame := { Adj_Close := [some 100] }

/-- C3 counterexample: on the one-observation price series `[100]` the
cumulative-return column's first entry is `NaN` (pandas `cumprod` keeps
`NaN` at the `NaN` position and only skips it in later products), not 0 as
the claim states. -/
theorem retorno_acumulado_primeiro_cex :
    (calcular_metricas dfC3).Retorno_Acumulado.get? 0 = some none ∧
    (calcular_metricas dfC3).Retorno_Acumulado.get? 0 ≠ some (some (0 : ℚ)) := by
  simp [dfC3, calcular_metricas, pct_change, retornoAcumulado, cumprodSkip]

/-- C3 amended: for every non-empty price series the cumulative return at
the first date is undefined (`NaN`), and the first date's undefined return
is skipped in the running product (contributes factor 1): at the second
date, when its daily return `r` is defined, the cumulative return equals
`r` itself. -/
theorem retorno_acumulado_primeiro (df : DataFrame) (h : df.Adj_Close ≠ []) :
    (calcular_metricas df).Retorno_Acumulado.get? 0 = some none ∧
    (∀ r : ℚ, (calcular_metricas df).Retorno_Diario.get? 1 = some (some r) →
      (calcular_metricas df).Retorno_Acumulado.get? 1 = some (some r)) := by
  obtain ⟨x, rest, hx⟩ := List.exists_cons_of_ne_nil h
  constructor
  · simp [calcular_metricas, hx, pct_change, retornoAcumulado, cumprodSkip]
  · intro r hr
    cases rest with
    | nil => simp [calcular_metricas, hx, pct_change] at hr
    | cons y rest2 =>
      simp only [calcular_metricas, hx, pct_change, List.zipWith_cons_cons,
        List.get?, Option.some.injEq] at hr
      simp only [calcular_metricas, hx, pct_change, List.zipWith_cons_cons,
        retornoAcumulado, List.map_cons, vdiv_none_right, vsub_none_left,
        vadd_none_right, hr]
      simp [vadd, cumprodSkip, vsub]

/-- A two-observation price series. -/
def dfC3w : DataFrame := { Adj_Close := [some 100, some 110] }

theorem retorno_acumulado_primeiro_witness :
    (calcular_metricas dfC3w).Retorno_Acumulado.get? 0 = some none ∧
    (∀ r : ℚ, (calcular_metricas dfC3w).Retorno_Diario.get? 1 = some (some r) →
      (calcular_metricas dfC3w).Retorno_Acumulado.get? 1 = some (some r)) :=
  retorno_acumulado_primeiro dfC3w (by simp [dfC3w])

/-- MetricSeries whose `MA50` column is `0, 1, 2, 3, 4, 5, 6`. -/
def dfC4 : DataFrame :=
  { Adj_Close := []
    Media_Movel_50 := [some 0, some 1, some 2, some 3, some 4, some 5, some 6] }

/-- C4 counterexample: on an `MA50` column `0,…,6` the latest value is 6
and the value 5 periods before the latest (index `length - 1 - 5`) is 1,
so the claim's momentum would be `(6 - 1) / 5 = 1`; the code's
`iloc[-5]` reads the 5th element from the end (4 periods before the
latest, here 2) and yields `(6 - 2) / 5 = 4/5 ≠ 1`. -/
theorem momento_cex :
    momento_crescimento dfC4 = some (4 / 5) ∧
    dfC4.Media_Movel_50.get? (dfC4.Media_Movel_50.length - 1) = some (some 6) ∧
    dfC4.Media_Movel_50.get? (dfC4.Media_Movel_50.length - 1 - 5) = some (some 1) ∧
    (4 / 5 : ℚ) ≠ (6 - 1) / 5 := by
  refine ⟨?_, by simp [dfC4], by simp [dfC4], by norm_num⟩
  simp [dfC4, momento_crescimento, ilocNeg, vsub, vdiv]
  norm_num

/-- C4 amended: the momentum term equals
`(MA50[latest] - MA50[latest - 4]) / 5`: `iloc[-5]` is the 5th value from
the end, i.e. the date 4 periods (not 5) before the latest. -/
theorem momento_inclinacao (df : DataFrame) (a b : ℚ)
    (h1 : ilocNeg df.Media_Movel_50 1 = some a)
    (h5 : ilocNeg df.Media_Movel_50 5 = some b) :
    momento_crescimento df = some ((a - b) / 5) ∧
    (5 ≤ df.Media_Movel_50.length →
      df.Media_Movel_50.get? (df.Media_Movel_50.length - 1 - 4) = some (some b)) := by
  constructor
  · simp [momento_crescimento, h1, h5, vsub, vdiv]
  · intro hlen
    have e : df.Media_Movel_50.length - 1 - 4 = df.Media_Movel_50.length - 5 := by
      omega
    rw [e]
    rw [ilocNeg, if_pos ⟨by norm_num, hlen⟩] at h5
    cases hg : df.Media_Movel_50.get? (df.Media_Movel_50.length - 5) with
    | none => rw [hg] at h5; simp at h5
    | some v => rw [hg] at h5; simp at h5; rw [h5]

theorem momento_inclinacao_witness :
    momento_crescimento dfC4 = some ((6 - 2) / 5) ∧
    (5 ≤ dfC4.Media_Movel_50.length →
      dfC4.Media_Movel_50.get? (dfC4.Media_Movel_50.length - 1 - 4) = some (some 2)) :=
  momento_inclinacao dfC4 6 2 (by simp [dfC4, ilocNeg]) (by simp [dfC4, ilocNeg])

/-! Rolling-window lemmas used for the moving-average claims. -/

theorem countP_range_ge (c n : Nat) :
    (List.range n).countP (fun i => decide (c ≤ i)) = n - c := by
  induction n with
  | zero => simp
  | succ n ih =>
    rw [List.range_succ, List.countP_append, ih, List.countP_singleton]
    by_cases h : c ≤ n <;> simp [h] <;> omega

theorem seqOpt_isSome (xs : List Val) (h : ∀ v ∈ xs, v ≠ none) :
    ∃ ys, seqOpt xs = some ys := by
  induction xs with
  | nil => exact ⟨[], rfl⟩
  | cons v t ih =>
    cases v with
    | none => exact absurd rfl (h none (by simp))
    | some x =>
      obtain ⟨ys, hys⟩ := ih (fun v hv => h v (by simp [hv]))
      exact ⟨x :: ys, by simp [seqOpt, hys]⟩

theorem rollingApply_getD (w : Nat) (f : List ℚ → ℚ) (xs : List Val) (i : Nat)
    (hi : i < xs.length) :
    (rollingApply w f xs).getD i none =
      if i + 1 < w then none
      else
        match seqOpt ((xs.drop (i + 1 - w)).take w) with
        | some ys => some (f ys)
        | none => none := by
  rw [rollingApply, List.getD_eq_getElem?_getD, List.getElem?_map, List.getElem?_range hi]
  rfl

/-- On a series with no `NaN` cell, a `rolling(window=w)` aggregate is
defined at position `i` exactly when a full window fits, `w ≤ i + 1`. -/
theorem rollingApply_defined (w : Nat) (f : List ℚ → ℚ) (xs : List Val)
    (h : ∀ v ∈ xs, v ≠ none) (i : Nat) (hi : i < xs.length) :
    (rollingApply w f xs).getD i none ≠ none ↔ w ≤ i + 1 := by
  rw [rollingApply_getD w f xs i hi]
  by_cases hc : i + 1 < w
  · simp [hc]
  · obtain ⟨ys, hys⟩ := seqOpt_isSome ((xs.drop (i + 1 - w)).take w)
      (fun v hv => h v (List.mem_of_mem_drop (List.mem_of_mem_take hv)))
    simp [hc, hys]
    omega

/-- On a series with no `NaN` cell, a `rolling(window=w)` aggregate has
exactly `length - (w - 1)` defined entries. -/
theorem rollingApply_countP (w : Nat) (f : List ℚ → ℚ) (xs : List Val)
    (h : ∀ v ∈ xs, v ≠ none) :
    (rollingApply w f xs).countP (fun v => v.isSome) = xs.length - (w - 1) := by
  rw [rollingApply, List.countP_map, ← countP_range_ge (w - 1) xs.length]
  apply List.countP_congr
  intro i hi
  have hilen : i < xs.length := List.mem_range.mp hi
  by_cases hc : i + 1 < w
  · simp [Function.comp, hc]
  · obtain ⟨ys, hys⟩ := seqOpt_isSome ((xs.drop (i + 1 - w)).take w)
      (fun v hv => h v (List.mem_of_mem_drop (List.mem_of_mem_take hv)))
    simp [Function.comp, hc, hys]
    omega

/-- A valid price series of 51 trading days. -/
def dfC5 : DataFrame := { Adj_Close := List.replicate 51 (some 1) }

/-- C5: for a price series with no missing prices, the 50-day moving
average column is everywhere undefined when the series is shorter than 50,
and for length ≥ 50 it is defined at exactly `length - 49` positions,
namely exactly the positions `i ≥ 49` (no partial-window averaging). -/
theorem ma50_janela (df : DataFrame) (h : ∀ v ∈ df.Adj_Close, v ≠ none) :
    (df.Adj_Close.length < 50 →
      ∀ v ∈ (calcular_metricas df).Media_Movel_50, v = none) ∧
    (50 ≤ df.Adj_Close.length →
      (calcular_metricas df).Media_Movel_50.countP (fun v => v.isSome) =
          df.Adj_Close.length - 49 ∧
      ∀ i, i < df.Adj_Close.length →
        ((calcular_metricas df).Media_Movel_50.getD i none ≠ none ↔ 49 ≤ i)) := by
  have hcol : (calcular_metricas df).Media_Movel_50 =
      rollingApply 50 (fun ys => ys.sum / (50 : ℚ)) df.Adj_Close := rfl
  rw [hcol]
  refine ⟨?_, fun _ => ⟨?_, ?_⟩⟩
  · intro hlen v hv
    rw [rollingApply] at hv
    obtain ⟨i, hi, heq⟩ := List.mem_map.mp hv
    rw [← heq]
    have hc : i + 1 < 50 := by have := List.mem_range.mp hi; omega
    simp [hc]
  · rw [rollingApply_countP 50 _ _ h]
  · intro i hi
    rw [rollingApply_defined 50 _ _ h i hi]
    omega

theorem ma50_janela_witness :
    (dfC5.Adj_Close.length < 50 →
      ∀ v ∈ (calcular_metricas dfC5).Media_Movel_50, v = none) ∧
    (50 ≤ dfC5.Adj_Close.length →
      (calcular_metricas dfC5).Media_Movel_50.countP (fun v => v.isSome) =
          dfC5.Adj_Close.length - 49 ∧
      ∀ i, i < dfC5.Adj_Close.length →
        ((calcular_metricas dfC5).Media_Movel_50.getD i none ≠ none ↔ 49 ≤ i)) :=
  ma50_janela dfC5 (by simp [dfC5])

/-- MetricSeries whose latest `MA50` is `NaN` while `MA200` is defined. -/
def dfC6 : DataFrame :=
  { Adj_Close := [], Media_Movel_50 := [none], Media_Movel_200 := [some 100] }

/-- C6 counterexample: with the latest `MA50` undefined (`NaN`) the
classifier does not report "indeterminate": the float comparison
`NaN > 100` is false, so it returns the Decline direction `"Queda"` (with
a `NaN` magnitude). -/
theorem tendencia_indeterminada_cex :
    ilocNeg dfC6.Media_Movel_50 1 = none ∧
    analisar_tendencia dfC6 = ("Queda", "⬇️", none) := by
  constructor
  · simp [dfC6, ilocNeg]
  · simp [dfC6, analisar_tendencia, ilocNeg]

/-- C6 amended: when either moving average is undefined at the latest
date, the classifier returns the Decline branch `("Queda", "⬇️")` with an
undefined magnitude — `NaN` makes the `>` comparison false, so control
always falls to the `else` branch; no "indeterminate" outcome exists. -/
theorem tendencia_indeterminada (df : DataFrame)
    (h : ilocNeg df.Media_Movel_50 1 = none ∨ ilocNeg df.Media_Movel_200 1 = none) :
    analisar_tendencia df = ("Queda", "⬇️", none) := by
  rcases h with h | h <;> simp [analisar_tendencia, h]

/-- MetricSeries whose latest `MA200` is `NaN` while `MA50` is defined. -/
def dfC6w : DataFrame :=
  { Adj_Close := [], Media_Movel_50 := [some 1], Media_Movel_200 := [none] }

theorem tendencia_indeterminada_witness :
    analisar_tendencia dfC6w = ("Queda", "⬇️", none) :=
  tendencia_indeterminada dfC6w (Or.inr (by simp [dfC6w, ilocNeg]))

/-- C7: if any of the three inputs of the projector — latest `MA50`, 5th
from latest `MA50`, latest volatility — is undefined, the projector's
result is undefined (`NaN` propagates through momentum, damping, clamp
(`NaN < 0` is false) and the final scaling), not a number. -/
theorem projecao_indeterminada (df : DataFrame)
    (h : ilocNeg df.Media_Movel_50 1 = none ∨ ilocNeg df.Media_Movel_50 5 = none ∨
      ilocNeg df.Volatilidade 1 = none) :
    calcular_projecao_crescimento df = none := by
  rcases h with h | h | h <;>
    simp [calcular_projecao_crescimento, momento_crescimento, h]

/-- MetricSeries with a 5-entry all-`NaN` `MA50` column and `NaN`
volatility, as the deriver produces for any series of fewer than 50
prices. -/
def dfC7 : DataFrame :=
  { Adj_Close := []
    Media_Movel_50 := [none, none, none, none, none]
    Volatilidade := [none] }

theorem projecao_indeterminada_witness :
    calcular_projecao_crescimento dfC7 = none :=
  projecao_indeterminada dfC7 (Or.inl (by simp [dfC7, ilocNeg]))

set_option maxRecDepth 4000 in
/-- C8 counterexample: the deriver raises no `DataError`. On the empty
series it returns the unchanged empty frame, and on the series `[-1]`
(a non-positive price) it returns a full MetricSeries with the derived
columns assigned; neither input makes it fail. -/
theorem metricas_sem_erro_cex :
    calcular_metricas { Adj_Close := [] } = { Adj_Close := [] } ∧
    calcular_metricas { Adj_Close := [some (-1)] } =
      { Adj_Close := [some (-1)], Retorno_Diario := [none], Retorno_Acumulado := [none],
        Media_Movel_50 := [none], Media_Movel_200 := [none], Volatilidade := [none] } := by
  constructor <;>
    simp [calcular_metricas, pct_change, retornoAcumulado, cumprodSkip, rollingMean,
      volatilidade, rollingApply, List.range_succ]

theorem pct_change_length (xs : List Val) : (pct_change xs).length = xs.length := by
  simp [pct_change]

theorem cumprodSkip_length (xs : List Val) (acc : ℚ) :
    (cumprodSkip xs acc).length = xs.length := by
  induction xs generalizing acc with
  | nil => rfl
  | cons v t ih => cases v <;> simp [cumprodSkip, ih]

theorem retornoAcumulado_length (rets : List Val) :
    (retornoAcumulado rets).length = rets.length := by
  simp [retornoAcumulado, cumprodSkip_length]

theorem rollingApply_length (w : Nat) (f : List ℚ → ℚ) (xs : List Val) :
    (rollingApply w f xs).length = xs.length := by
  simp [rollingApply]

/-- C8 amended: `calcular_metricas` performs no input validation — it is
total, and on every input (empty, non-positive or `NaN` prices included)
it returns a MetricSeries whose five derived columns are aligned with the
input's date index (equal lengths); no `DataError` path exists in the
code. -/
theorem metricas_total (df : DataFrame) :
    (calcular_metricas df).Retorno_Diario.length = df.Adj_Close.length ∧
    (calcular_metricas df).Retorno_Acumulado.length = df.Adj_Close.length ∧
    (calcular_metricas df).Media_Movel_50.length = df.Adj_Close.length ∧
    (calcular_metricas df).Media_Movel_200.length = df.Adj_Close.length ∧
    (calcular_metricas df).Volatilidade.length = df.Adj_Close.length := by
  refine ⟨?_, ?_, ?_, ?_, ?_⟩ <;>
    simp [calcular_metricas, pct_change_length, retornoAcumulado_length,
      rollingMean, volatilidade, rollingApply_length]

/-- C9 counterexample: the deriver mutates the caller's `DataFrame` in
place — after the call the object holds five new derived columns, so its
post-state differs from its pre-state. -/
theorem metricas_muta_cex :
    calcular_metricas { Adj_Close := [some 1] } ≠ { Adj_Close := [some 1] } := by
  simp [calcular_metricas, pct_change]

/-- C9 amended: the deriver adds the derived columns to the caller's
`DataFrame` in place (no derived copy), but it leaves the raw price data
(`Adj Close` column and date index) unchanged. -/
theorem metricas_preserva_precos (df : DataFrame) :
    (calcular_metricas df).Adj_Close = df.Adj_Close := rfl

/-- C10: a second run of the full pipeline on the same price series — in
the state-passing model the second run receives the caller's `DataFrame`
as mutated by the first — yields the identical MetricSeries, trend result
and projection: the derived columns are recomputed from the unchanged
price column, and each stage is a pure function of its input. -/
theorem pipeline_idempotente (df : DataFrame) :
    pipeline (calcular_metricas df) = pipeline df := rfl

end Investimento
